import Mathlib

/-!
Verification development for the healthcare doctor-patient translation backend.

The definitions below are a shallow embedding of the JavaScript backend:

* `backend/src/services/translationService.js` (translateText, mockTranslate,
  SUPPORTED_LANGUAGES, the MyMemory/RapidAPI fallback chain),
* `backend/src/services/summaryService.js` (the rule-based keyword extraction),
* `backend/src/models/{Conversation,Message}.js` and the `Summary` model,
* the HTTP routes in `backend/src/routes/{realtime,conversations,summaries,conversation-log}.js`
  and the socket `send-message` / `join-conversation` handlers.

External HTTP providers are modelled as oracle outcomes (`Option String`:
`some t` = the provider resolved with translation `t`, `none` = the call threw).
The database is an in-memory record of rows; SQL statements are modelled by the
corresponding list operations.  JavaScript truthiness of strings is modelled by
comparison with the empty string.
-/

namespace HealthcareChat

/-! ## Translation service (`translationService.js`) -/

/-- The two translation providers the service can call out to:
MyMemory (primary, free) and the RapidAPI endpoint chain (fallback). -/
inductive Provider
  | mymemory
  | rapidapi
deriving DecidableEq, Repr

/-- `SUPPORTED_LANGUAGES` object from `translationService.js` (code ↦ name). -/
def SUPPORTED_LANGUAGES : List (String × String) :=
  [("en", "English"), ("es", "Spanish"), ("zh", "Chinese (Simplified)"),
   ("zh-TW", "Chinese (Traditional)"), ("ar", "Arabic"), ("fr", "French"),
   ("de", "German"), ("pt", "Portuguese"), ("ru", "Russian"), ("hi", "Hindi"),
   ("vi", "Vietnamese"), ("ko", "Korean"), ("ja", "Japanese"), ("it", "Italian"),
   ("nl", "Dutch"), ("pl", "Polish"), ("tr", "Turkish"), ("fa", "Persian"),
   ("uk", "Ukrainian"), ("th", "Thai"), ("id", "Indonesian"), ("bn", "Bengali"),
   ("ta", "Tamil"), ("te", "Telugu"), ("mr", "Marathi"), ("ur", "Urdu"),
   ("el", "Greek"), ("he", "Hebrew"), ("ro", "Romanian"), ("hu", "Hungarian"),
   ("cs", "Czech"), ("sv", "Swedish"), ("da", "Danish"), ("fi", "Finnish"),
   ("no", "Norwegian")]

/-- `SUPPORTED_LANGUAGES[targetLanguage] || targetLanguage` in `mockTranslate`. -/
def languageName (code : String) : String :=
  match SUPPORTED_LANGUAGES.lookup code with
  | some n => n
  | none => code

/-- `mockTranslate` from `translationService.js`: the deterministic placeholder
transform used when every provider failed. -/
def mockTranslate (text targetLanguage : String) : String :=
  "[" ++ languageName targetLanguage ++ "] " ++ text

/-- Environment of `translateText`: configuration plus the oracle outcomes of
the external provider calls (`some t` = resolves with `t`, `none` = throws). -/
structure Env where
  /-- `TRANSLATION_PROVIDER` (default `"mymemory"`). -/
  provider : String := "mymemory"
  /-- `TRANSLATION_API_KEY`; the empty string models an unset variable. -/
  apiKey : String := ""
  /-- module-level `workingApiIndex` (starts at 0). -/
  workingApiIndex : Nat := 0
  /-- outcome of `myMemoryService.translateText(...).translatedText`. -/
  myMemoryOutcome : Option String := none
  /-- outcome of `translateWithAPI` for the i-th entry of `TRANSLATION_APIS`. -/
  rapidOutcome : Nat → Option String := fun _ => none

/-- JavaScript `String.prototype.trim()`: strip whitespace from both ends
(modelled over the character list so that it evaluates in the kernel). -/
def jsTrim (s : String) : String :=
  ⟨((s.data.dropWhile Char.isWhitespace).reverse.dropWhile Char.isWhitespace).reverse⟩

/-- `TRANSLATION_API_KEY && TRANSLATION_API_KEY !== 'your_translation_api_key_here'`. -/
def hasRapidKey (e : Env) : Bool :=
  e.apiKey ≠ "" && e.apiKey ≠ "your_translation_api_key_here"

/-- The guard of the primary branch:
`TRANSLATION_PROVIDER === 'mymemory' || !TRANSLATION_API_KEY || TRANSLATION_API_KEY === '...'`. -/
def useMyMemoryFirst (e : Env) : Bool :=
  e.provider == "mymemory" || !hasRapidKey e

/-- There are four entries in `TRANSLATION_APIS`. -/
def TRANSLATION_APIS_COUNT : Nat := 4

/-- `apisToTry`: the full list when `workingApiIndex === 0`, otherwise the
working API first followed by the remaining ones. -/
def apisToTry (e : Env) : List Nat :=
  if e.workingApiIndex = 0 then
    List.range TRANSLATION_APIS_COUNT
  else
    e.workingApiIndex ::
      (List.range TRANSLATION_APIS_COUNT).filter (fun i => i ≠ e.workingApiIndex)

/-- The `for` loop over `apisToTry`: return the first RapidAPI endpoint that
succeeds, continuing to the next one on failure. -/
def tryRapidApis (e : Env) : Option String :=
  (apisToTry e).findSome? e.rapidOutcome

/-- `translateText(text, targetLanguage, sourceLanguage)` from
`translationService.js`, together with the list of providers that were called.

The JavaScript function never rejects: every `throw` inside the `try` block is
caught by the outer `catch`, which returns the original `text`.  The embedding
therefore returns a plain `String` (the resolved value), paired with the
providers attempted, in call order:

* `!text` / `!targetLanguage` validation throws → caught → original text;
* `sourceLanguage === targetLanguage` → original text, no provider call;
* whitespace-only trimmed text → original text, no provider call;
* primary MyMemory branch, falling through to the RapidAPI chain only when a
  RapidAPI key is configured, otherwise straight to `mockTranslate`;
* RapidAPI chain; when every endpoint fails, `mockTranslate` of the trimmed
  text. -/
def translateTextRun (e : Env) (text targetLanguage : String)
    (sourceLanguage : Option String) : String × List Provider :=
  if text = "" then (text, [])
  else if targetLanguage = "" then (text, [])
  else if sourceLanguage = some targetLanguage then (text, [])
  else
    let trimmedText := jsTrim text
    if trimmedText = "" then (text, [])
    else if useMyMemoryFirst e then
      match e.myMemoryOutcome with
      | some result => (result, [.mymemory])
      | none =>
        if hasRapidKey e then
          match tryRapidApis e with
          | some t => (t, [.mymemory, .rapidapi])
          | none => (mockTranslate trimmedText targetLanguage, [.mymemory, .rapidapi])
        else
          (mockTranslate trimmedText targetLanguage, [.mymemory])
    else
      if hasRapidKey e then
        match tryRapidApis e with
        | some t => (t, [.rapidapi])
        | none => (mockTranslate trimmedText targetLanguage, [.rapidapi])
      else
        (mockTranslate trimmedText targetLanguage, [])

/-- `translateText` as the callers use it: just the resolved string. -/
def translateText (e : Env) (text targetLanguage : String)
    (sourceLanguage : Option String := none) : String :=
  (translateTextRun e text targetLanguage sourceLanguage).fst

/-! ## Rule-based summary extraction (`summaryService.js`) -/

/-- JavaScript `String.prototype.toLowerCase()` over the character list. -/
def lowerStr (s : String) : String :=
  ⟨s.data.map Char.toLower⟩

/-- JavaScript `String.prototype.includes(k)`: substring containment. -/
def includesStr (s k : String) : Bool :=
  decide (k.data <:+: s.data)

/-- JavaScript `Array.prototype.join(sep)`. -/
def joinSep (sep : String) : List String → String
  | [] => ""
  | [x] => x
  | x :: y :: xs => x ++ sep ++ joinSep sep (y :: xs)

/-- `symptomKeywords` table of `extractSymptoms` (insertion order preserved). -/
def symptomKeywords : List (String × String) :=
  [("pain", "Pain reported"), ("headache", "Headache"), ("fever", "Fever/temperature"),
   ("cough", "Coughing"), ("fatigue", "Fatigue/tiredness"), ("nausea", "Nausea"),
   ("dizziness", "Dizziness"), ("shortness of breath", "Breathing difficulty"),
   ("chest pain", "Chest discomfort"), ("stomach", "Stomach issues"),
   ("sore throat", "Sore throat"), ("congestion", "Nasal congestion"),
   ("vomiting", "Vomiting")]

/-- `diagnosisKeywords` table of `extractDiagnosis`. -/
def diagnosisKeywords : List (String × String) :=
  [("flu", "Influenza"), ("cold", "Common cold"), ("infection", "Infection"),
   ("virus", "Viral infection"), ("bacteria", "Bacterial infection"),
   ("injury", "Injury/Trauma"), ("chronic", "Chronic condition"),
   ("routine", "Routine checkup"), ("followup", "Follow-up consultation")]

/-- `medicationKeywords` table of `extractMedications`. -/
def medicationKeywords : List (String × String) :=
  [("antibiotic", "Antibiotic therapy"), ("painkiller", "Pain management"),
   ("anti-inflammatory", "Anti-inflammatory medication"),
   ("tablet", "Oral medication prescribed"), ("syrup", "Liquid medication"),
   ("injection", "Injection administered"), ("cream", "Topical medication"),
   ("prescription", "Prescription provided")]

/-- `followUpKeywords` table of `extractFollowUp`. -/
def followUpKeywords : List (String × String) :=
  [("follow up", "Schedule follow-up appointment"),
   ("revisit", "Revisit clinic if symptoms worsen"),
   ("rest", "Rest and recovery recommended"),
   ("test", "Additional tests/labs required"),
   ("specialist", "Referral to specialist recommended"),
   ("emergency", "Seek emergency care if condition worsens"),
   ("monitor", "Monitor symptoms and report changes"),
   ("prescription", "Follow prescription dosage instructions"),
   ("appointment", "Follow-up appointment scheduled")]

/-- The `for (const [keyword, description] of Object.entries(table))` loop that
collects the descriptions of all matching keywords, in table order. -/
def foundLabels (table : List (String × String)) (text : String) : List String :=
  (table.filter (fun kv => includesStr (lowerStr text) kv.fst)).map (fun kv => kv.snd)

/-- `extractSymptoms` from `summaryService.js`. -/
def extractSymptoms (text : String) : String :=
  let foundSymptoms := foundLabels symptomKeywords text
  if foundSymptoms.isEmpty then "Symptoms not explicitly detailed"
  else joinSep ", " foundSymptoms

/-- `extractDiagnosis` from `summaryService.js` (returns on the first match). -/
def extractDiagnosis (text : String) : String :=
  match diagnosisKeywords.find? (fun kv => includesStr (lowerStr text) kv.fst) with
  | some kv => kv.snd
  | none => "Assessment pending - Review clinical notes"

/-- `extractMedications` from `summaryService.js`. -/
def extractMedications (text : String) : String :=
  let foundMedications := foundLabels medicationKeywords text
  if foundMedications.isEmpty then "Medication details not specified in transcript"
  else joinSep ", " foundMedications

/-- `extractFollowUp` from `summaryService.js`. -/
def extractFollowUp (text : String) : String :=
  let foundActions := foundLabels followUpKeywords text
  if foundActions.isEmpty then "Follow standard care instructions - consult healthcare provider"
  else joinSep "; " foundActions

/-! ## Relational data model (`schema.sql`, `models/*.js`)

Row ids are `Nat`; id `0` plays the role of a JavaScript falsy id (`!id`).
Timestamps are `Nat` ticks (`NOW()` is passed in by the caller as `now`). -/

/-- A row of the `conversations` table. -/
structure Conversation where
  id : Nat
  doctor_id : Nat
  patient_id : Nat
  doctor_language : String
  patient_language : String
  /-- `ENUM('active','ended','archived')`, default `'active'`. -/
  status : String
  title : String
  created_at : Nat
  ended_at : Option Nat
deriving DecidableEq, Repr

/-- A row of the `messages` table. -/
structure Message where
  id : Nat
  conversation_id : Nat
  sender_id : Nat
  sender_role : String
  original_text : String
  translated_text : String
  audio_url : Option String
  audio_duration : Option Nat
  message_type : String
  created_at : Nat
deriving DecidableEq, Repr

/-- A row of the `summaries` table (`conversation_id` is `UNIQUE`). -/
structure Summary where
  id : Nat
  conversation_id : Nat
  content : String
  symptoms : String
  diagnosis : String
  medications : String
  follow_up_actions : String
  generated_by : Option Nat
deriving DecidableEq, Repr

/-- The relational store. -/
structure Db where
  conversations : List Conversation
  messages : List Message
  summaries : List Summary
deriving DecidableEq, Repr

/-- An authenticated principal (`req.user` / `socket.userId`, `socket.userRole`). -/
structure Principal where
  id : Nat
  role : String
deriving DecidableEq, Repr

/-- `AUTO_INCREMENT` for a list of existing ids: one more than the maximum. -/
def nextId (ids : List Nat) : Nat :=
  ids.foldr max 0 + 1

/-- `Conversation.findById`: `SELECT ... FROM conversations c ... WHERE c.id = ?`
(the user JOIN only adds display columns and is dropped). -/
def Conversation.findById (db : Db) (id : Nat) : Option Conversation :=
  db.conversations.find? (fun c => c.id = id)

/-- `Conversation.getActiveConversation`: active row for the pair, most recent
first, `LIMIT 1`. -/
def getActiveConversation (db : Db) (doctorId patientId : Nat) : Option Conversation :=
  ((db.conversations.filter (fun c =>
      c.doctor_id = doctorId && c.patient_id = patientId && c.status = "active")).insertionSort
    (fun a b => b.created_at ≤ a.created_at)).head?

/-- `Conversation.create`: INSERT with `doctorLanguage || 'en'` and status
defaulting to `'active'`; returns `result.insertId`. -/
def Conversation.create (db : Db) (doctorId patientId : Nat)
    (doctorLanguage patientLanguage title : String) (now : Nat) : Nat × Db :=
  let id := nextId (db.conversations.map (fun c => c.id))
  let row : Conversation :=
    { id := id, doctor_id := doctorId, patient_id := patientId,
      doctor_language := if doctorLanguage = "" then "en" else doctorLanguage,
      patient_language := patientLanguage, status := "active", title := title,
      created_at := now, ended_at := none }
  (id, { db with conversations := db.conversations ++ [row] })

/-- The SQL text built by `Conversation.updateStatus`:
`UPDATE conversations SET status = ?, ${status === 'ended' ? 'ended_at = NOW()' : ''} WHERE id = ?`.
For any status other than `'ended'` the interpolation is empty and the comma
after `status = ?` dangles directly before `WHERE`. -/
def updateStatusQuery (status : String) : String :=
  "UPDATE conversations SET status = ?, " ++
    (if status = "ended" then "ended_at = NOW() " else "") ++ "WHERE id = ?"

/-- A `SET` clause whose final assignment is followed by a dangling comma
(`", WHERE"` in the statement text) is a MySQL syntax error: `pool.execute`
rejects and the model throws. -/
def updateStatusQueryMalformed (status : String) : Bool :=
  includesStr (updateStatusQuery status) ", WHERE"

/-- Errors surfaced by `pool.execute`. -/
inductive DbError
  | sqlSyntax
deriving DecidableEq, Repr

/-- `Conversation.updateStatus(id, status)`: sets `status`, and `ended_at = NOW()`
when the new status is `'ended'`; for any other status the generated SQL is
malformed (dangling comma) and the call throws. -/
def Conversation.updateStatus (db : Db) (id : Nat) (status : String) (now : Nat) :
    Except DbError Db :=
  if updateStatusQueryMalformed status then
    .error .sqlSyntax
  else
    .ok { db with
          conversations := db.conversations.map (fun c =>
            if c.id = id then
              { c with status := status,
                       ended_at := if status = "ended" then some now else c.ended_at }
            else c) }

/-- `Message.create`: INSERT (with `audioUrl || null`, `audioDuration || null`,
`messageType || 'text'`); returns `result.insertId`. -/
def Message.create (db : Db) (conversationId senderId : Nat) (senderRole : String)
    (originalText translatedText : String) (audioUrl : Option String)
    (audioDuration : Option Nat) (messageType : String) (now : Nat) : Nat × Db :=
  let id := nextId (db.messages.map (fun m => m.id))
  let row : Message :=
    { id := id, conversation_id := conversationId, sender_id := senderId,
      sender_role := senderRole, original_text := originalText,
      translated_text := translatedText,
      audio_url := match audioUrl with | some s => if s = "" then none else some s | none => none,
      audio_duration := match audioDuration with | some 0 => none | o => o,
      message_type := if messageType = "" then "text" else messageType,
      created_at := now }
  (id, { db with messages := db.messages ++ [row] })

/-- `Message.findById`. -/
def Message.findById (db : Db) (id : Nat) : Option Message :=
  db.messages.find? (fun m => m.id = id)

/-- `Message.getRecentMessages(conversationId, limit)`:
`WHERE conversation_id = ? ORDER BY created_at DESC LIMIT ?` then
`rows.reverse()` (the user JOIN only adds display columns). -/
def getRecentMessages (db : Db) (conversationId limit : Nat) : List Message :=
  ((((db.messages.filter (fun m => m.conversation_id = conversationId)).insertionSort
      (fun a b => b.created_at ≤ a.created_at)).take limit).reverse)

instance : IsTotal Message (fun a b => b.created_at ≤ a.created_at) :=
  ⟨fun a b => Nat.le_total b.created_at a.created_at⟩

instance : IsTrans Message (fun a b => b.created_at ≤ a.created_at) :=
  ⟨fun _ _ _ h1 h2 => Nat.le_trans h2 h1⟩

/-- `Summary.findByConversationId`. -/
def Summary.findByConversationId (db : Db) (conversationId : Nat) : Option Summary :=
  db.summaries.find? (fun s => s.conversation_id = conversationId)

/-- `Summary.findById`. -/
def Summary.findById (db : Db) (id : Nat) : Option Summary :=
  db.summaries.find? (fun s => s.id = id)

/-- The four semantic fields plus content produced by `generateMedicalSummary`. -/
structure SummaryData where
  content : String
  symptoms : String
  diagnosis : String
  medications : String
  followUpActions : String
deriving DecidableEq, Repr

/-- `Summary.create`: `INSERT ... ON DUPLICATE KEY UPDATE ...` on the unique
`conversation_id` key.  On a fresh conversation it inserts and `insertId` is
the new row id; on a duplicate the existing row is overwritten in place and
MySQL reports `insertId = 0` (no `LAST_INSERT_ID(id)` trick is used). -/
def Summary.create (db : Db) (conversationId : Nat) (data : SummaryData)
    (generatedBy : Option Nat) : Nat × Db :=
  match db.summaries.find? (fun s => s.conversation_id = conversationId) with
  | some _ =>
    (0, { db with
          summaries := db.summaries.map (fun s =>
            if s.conversation_id = conversationId then
              { s with content := data.content, symptoms := data.symptoms,
                       diagnosis := data.diagnosis, medications := data.medications,
                       follow_up_actions := data.followUpActions,
                       generated_by := generatedBy }
            else s) })
  | none =>
    let id := nextId (db.summaries.map (fun s => s.id))
    let row : Summary :=
      { id := id, conversation_id := conversationId, content := data.content,
        symptoms := data.symptoms, diagnosis := data.diagnosis,
        medications := data.medications, follow_up_actions := data.followUpActions,
        generated_by := generatedBy }
    (id, { db with summaries := db.summaries ++ [row] })

/-- `Summary.update(id, updates)`: UPDATE by primary key; returns
`result.insertId || id`, i.e. `id` (an UPDATE reports `insertId = 0`). -/
def Summary.update (db : Db) (id : Nat) (data : SummaryData) : Nat × Db :=
  (id, { db with
         summaries := db.summaries.map (fun s =>
           if s.id = id then
             { s with content := data.content, symptoms := data.symptoms,
                      diagnosis := data.diagnosis, medications := data.medications,
                      follow_up_actions := data.followUpActions }
           else s) })

/-- `Message.findByConversationId`: all messages of the conversation,
`ORDER BY created_at ASC`. -/
def Message.findByConversationId (db : Db) (conversationId : Nat) : List Message :=
  (db.messages.filter (fun m => m.conversation_id = conversationId)).insertionSort
    (fun a b => a.created_at ≤ b.created_at)

/-! ## Message pipeline entry points
(`routes/realtime.js` POST `/message`, the socket `send-message` handler, and
`routes` messages router POST `/:conversationId`) -/

/-- Outcome of a message-send entry point. -/
inductive SendResult
  | ok (message : Message)
  /-- 400 `INVALID_CONVERSATION` (missing conversation id). -/
  | invalidConversation
  /-- 400 `NO_CONTENT` / `'Message text is required'`. -/
  | noContent
  /-- 404 `CONVERSATION_NOT_FOUND`. -/
  | notFound
  /-- 403 `FORBIDDEN` / `'Access denied'`. -/
  | forbidden
deriving DecidableEq, Repr

/-- Whether a send succeeded. -/
def SendResult.isOk : SendResult → Bool
  | .ok _ => true
  | _ => false

/-- JavaScript falsiness of an optional string (`undefined`, `null` or `''`). -/
def optFalsy : Option String → Bool
  | none => true
  | some s => s = ""

/-- `POST /api/realtime/message` (`routes/realtime.js`): validate, resolve the
target language from the sender's role, translate, persist, respond.  The
second component is the store after the request. -/
def sendRealtimeMessage (e : Env) (db : Db) (user : Principal)
    (conversationId : Nat) (text : String) (audioUrl : Option String)
    (audioDuration : Option Nat) (messageType : String) (now : Nat) :
    SendResult × Db :=
  if conversationId = 0 then (.invalidConversation, db)
  else if text = "" && optFalsy audioUrl then (.noContent, db)
  else
    match Conversation.findById db conversationId with
    | none => (.notFound, db)
    | some conversation =>
      if conversation.doctor_id ≠ user.id && conversation.patient_id ≠ user.id then
        (.forbidden, db)
      else
        let targetLanguage :=
          if user.role = "doctor" then conversation.patient_language
          else conversation.doctor_language
        let translatedText :=
          if text ≠ "" then translateText e text targetLanguage none else ""
        let (messageId, db1) :=
          Message.create db conversationId user.id user.role text translatedText
            audioUrl audioDuration messageType now
        match Message.findById db1 messageId with
        | some savedMessage => (.ok savedMessage, db1)
        | none => (.notFound, db1)

/-- The socket `send-message` handler (`websocket` setup): no content
validation at all — look up the conversation, check membership, translate,
persist, broadcast. -/
def socketSendMessage (e : Env) (db : Db) (user : Principal)
    (conversationId : Nat) (originalText : String)
    (audioData : Option (String × Nat)) (messageType : String) (now : Nat) :
    SendResult × Db :=
  match Conversation.findById db conversationId with
  | none => (.notFound, db)
  | some conversation =>
    if conversation.doctor_id ≠ user.id && conversation.patient_id ≠ user.id then
      (.forbidden, db)
    else
      let targetLanguage :=
        if user.role = "doctor" then conversation.patient_language
        else conversation.doctor_language
      let translatedText := translateText e originalText targetLanguage none
      let (messageId, db1) :=
        Message.create db conversationId user.id user.role originalText
          translatedText (audioData.map (fun a => a.fst))
          (audioData.map (fun a => a.snd)) messageType now
      match Message.findById db1 messageId with
      | some savedMessage => (.ok savedMessage, db1)
      | none => (.notFound, db1)

/-- Messages router `POST /:conversationId`: rejects empty trimmed text
(`!text || !text.trim()`); stores the raw text as its own translation. -/
def messagesPostRoute (db : Db) (user : Principal) (conversationId : Nat)
    (text senderRole : String) (now : Nat) : SendResult × Db :=
  match Conversation.findById db conversationId with
  | none => (.notFound, db)
  | some conversation =>
    if conversation.doctor_id ≠ user.id && conversation.patient_id ≠ user.id then
      (.forbidden, db)
    else if text = "" || jsTrim text = "" then (.noContent, db)
    else
      let (messageId, db1) :=
        Message.create db conversationId user.id
          (if senderRole = "" then user.role else senderRole) text text
          none none "text" now
      match Message.findById db1 messageId with
      | some savedMessage => (.ok savedMessage, db1)
      | none => (.notFound, db1)

/-! ## Conversation lifecycle (`routes/conversations.js`) -/

/-- Outcome of `POST /` (create conversation). -/
inductive CreateResult
  /-- 201, newly inserted conversation (as re-read by `findById`). -/
  | created (c : Option Conversation)
  /-- 200 `reused: true` with the existing conversation. -/
  | reused (c : Conversation)
  /-- 409 with `existingConversation`. -/
  | conflict (existing : Conversation)
  /-- 400 from `validateConversation`. -/
  | badRequest
  /-- 403 from `authorizeRoles('doctor')`. -/
  | forbidden
  /-- 500 via `next(error)`. -/
  | serverError
deriving DecidableEq, Repr

/-- Whether conversation creation answered 201 with a new conversation. -/
def CreateResult.isCreated : CreateResult → Bool
  | .created _ => true
  | _ => false

/-- `POST /` on the conversations router: doctor-only; look up an existing
active conversation for the (doctor, patient) pair and resolve according to
`action` (`'reuse'`, `'end_and_create'`, or none → 409 Conflict). -/
def createConversationRoute (db : Db) (user : Principal) (patientId : Nat)
    (patientLanguage doctorLanguage title : String) (action : Option String)
    (now : Nat) : CreateResult × Db :=
  if user.role ≠ "doctor" then (.forbidden, db)
  else if patientId = 0 then (.badRequest, db)
  else if patientLanguage = "" then (.badRequest, db)
  else
    let doCreate : Db → CreateResult × Db := fun db0 =>
      let (conversationId, db1) :=
        Conversation.create db0 user.id patientId doctorLanguage patientLanguage title now
      (.created (Conversation.findById db1 conversationId), db1)
    match getActiveConversation db user.id patientId with
    | some existing =>
      if action = some "reuse" then (.reused existing, db)
      else if action = some "end_and_create" then
        match Conversation.updateStatus db existing.id "ended" now with
        | .error _ => (.serverError, db)
        | .ok db1 => doCreate db1
      else (.conflict existing, db)
    | none => doCreate db

/-- Outcome of `PATCH /:id/status`. -/
inductive StatusResult
  /-- 200 with the re-read conversation. -/
  | ok (c : Option Conversation)
  /-- 400 `'Invalid status'`. -/
  | invalidStatus
  /-- 404. -/
  | notFound
  /-- 403. -/
  | forbidden
  /-- 500 via `next(error)` (e.g. the malformed UPDATE statement). -/
  | dbError
deriving DecidableEq, Repr

/-- Whether a status update succeeded. -/
def StatusResult.isOk : StatusResult → Bool
  | .ok _ => true
  | _ => false

/-- `PATCH /:id/status`: only checks that the requested status is one of the
three enum values and that the caller participates; it then calls
`Conversation.updateStatus` unconditionally (no transition check). -/
def patchStatusRoute (db : Db) (user : Principal) (id : Nat) (status : String)
    (now : Nat) : StatusResult × Db :=
  if ¬ (["active", "ended", "archived"].contains status) then (.invalidStatus, db)
  else
    match Conversation.findById db id with
    | none => (.notFound, db)
    | some conversation =>
      if conversation.doctor_id ≠ user.id && conversation.patient_id ≠ user.id then
        (.forbidden, db)
      else
        match Conversation.updateStatus db id status now with
        | .error _ => (.dbError, db)
        | .ok db1 => (.ok (Conversation.findById db1 id), db1)

/-! ## Summary generation entry points
(`routes/summaries.js` and the ai-summary routes in `conversation-log.js`) -/

/-- Outcome of a summary-generation request. -/
inductive SumRes
  /-- 201/200 with the re-read summary row. -/
  | ok (s : Option Summary)
  /-- 400 (missing conversation id). -/
  | invalidInput
  /-- 404. -/
  | notFound
  /-- 403. -/
  | forbidden
  /-- 400 (no messages to summarize). -/
  | noMessages
  /-- 409 `SUMMARY_EXISTS` with the existing row. -/
  | conflict (existing : Summary)
deriving DecidableEq, Repr

/-- Whether a summary request was answered with 409 Conflict. -/
def SumRes.isConflict : SumRes → Bool
  | .conflict _ => true
  | _ => false

/-- Whether a summary request succeeded. -/
def SumRes.isOk : SumRes → Bool
  | .ok _ => true
  | _ => false

/-- Summaries router `POST /:conversationId/generate` (`routes/summaries.js`):
doctor-only, requires messages, then calls `Summary.create` directly — there is
no check for an existing summary, so the upsert silently overwrites. -/
def summariesGenerate (db : Db) (user : Principal) (conversationId : Nat)
    (gen : List Message → String → String → SummaryData) : SumRes × Db :=
  match Conversation.findById db conversationId with
  | none => (.notFound, db)
  | some conversation =>
    if conversation.doctor_id ≠ user.id then (.forbidden, db)
    else
      let messages := Message.findByConversationId db conversationId
      if messages.isEmpty then (.noMessages, db)
      else
        let summaryData := gen messages conversation.doctor_language conversation.patient_language
        let (summaryId, db1) :=
          Summary.create db conversationId summaryData (some user.id)
        (.ok (Summary.findById db1 summaryId), db1)

/-- `POST /api/ai-summary/generate` (`routes/conversation-log.js`): same
preconditions, but rejects with 409 `SUMMARY_EXISTS` when a summary row
already exists for the conversation. -/
def aiSummaryGenerate (db : Db) (user : Principal) (conversationId : Nat)
    (gen : List Message → String → String → SummaryData) : SumRes × Db :=
  if conversationId = 0 then (.invalidInput, db)
  else
    match Conversation.findById db conversationId with
    | none => (.notFound, db)
    | some conversation =>
      if conversation.doctor_id ≠ user.id then (.forbidden, db)
      else
        let messages := Message.findByConversationId db conversationId
        if messages.isEmpty then (.noMessages, db)
        else
          match Summary.findByConversationId db conversationId with
          | some existingSummary => (.conflict existingSummary, db)
          | none =>
            let summaryData :=
              gen messages conversation.doctor_language conversation.patient_language
            let (summaryId, db1) := Summary.create db conversationId summaryData none
            (.ok (Summary.findById db1 summaryId), db1)

/-- `POST /api/ai-summary/regenerate` (`routes/conversation-log.js`): updates
the existing summary row in place when one exists, otherwise creates one. -/
def aiSummaryRegenerate (db : Db) (user : Principal) (conversationId : Nat)
    (gen : List Message → String → String → SummaryData) : SumRes × Db :=
  if conversationId = 0 then (.invalidInput, db)
  else
    match Conversation.findById db conversationId with
    | none => (.notFound, db)
    | some conversation =>
      if conversation.doctor_id ≠ user.id then (.forbidden, db)
      else
        let messages := Message.findByConversationId db conversationId
        if messages.isEmpty then (.noMessages, db)
        else
          let summaryData :=
            gen messages conversation.doctor_language conversation.patient_language
          match Summary.findByConversationId db conversationId with
          | some existingSummary =>
            let (summaryId, db1) := Summary.update db existingSummary.id summaryData
            (.ok (Summary.findById db1 summaryId), db1)
          | none =>
            let (summaryId, db1) := Summary.create db conversationId summaryData none
            (.ok (Summary.findById db1 summaryId), db1)

/-! ## Joining a conversation (socket `join-conversation` handler) -/

/-- Outcome of `join-conversation`. -/
inductive JoinResult
  /-- `conversation-joined` with the recent-message backfill. -/
  | joined (messages : List Message)
  /-- `error {message: 'Conversation not found'}`. -/
  | notFound
  /-- `error {message: 'Access denied'}`. -/
  | forbidden
deriving DecidableEq, Repr

/-- The `join-conversation` handler: verify membership, then emit
`conversation-joined` carrying `Message.getRecentMessages(conversationId, 50)`. -/
def joinConversationBackfill (db : Db) (user : Principal) (conversationId : Nat) :
    JoinResult :=
  match Conversation.findById db conversationId with
  | none => .notFound
  | some conversation =>
    if conversation.doctor_id ≠ user.id && conversation.patient_id ≠ user.id then
      .forbidden
    else
      .joined (getRecentMessages db conversationId 50)

/-- Number of summary rows stored for a conversation (the schema's UNIQUE
constraint on `conversation_id` corresponds to this being at most 1). -/
def summaryRowCount (db : Db) (cid : Nat) : Nat :=
  (db.summaries.filter (fun s => s.conversation_id = cid)).length

/-! ## Concrete fixtures used to instantiate the theorems -/

/-- An active conversation: doctor 1 (en) with patient 2 (es). -/
def fxConv : Conversation :=
  { id := 1, doctor_id := 1, patient_id := 2, doctor_language := "en",
    patient_language := "es", status := "active", title := "Consultation",
    created_at := 0, ended_at := none }

/-- The doctor of `fxConv`. -/
def fxDoctor : Principal := { id := 1, role := "doctor" }

/-- The patient of `fxConv`. -/
def fxPatient : Principal := { id := 2, role := "patient" }

/-- A message already stored on `fxConv`. -/
def fxMsg : Message :=
  { id := 1, conversation_id := 1, sender_id := 2, sender_role := "patient",
    original_text := "Tengo fiebre", translated_text := "I have a fever",
    audio_url := none, audio_duration := none, message_type := "text",
    created_at := 1 }

/-- A summary row already stored for `fxConv`. -/
def fxSummary : Summary :=
  { id := 1, conversation_id := 1, content := "old content", symptoms := "old symptoms",
    diagnosis := "old diagnosis", medications := "old medications",
    follow_up_actions := "old follow-up", generated_by := some 1 }

/-- Store with just the conversation. -/
def fxDb : Db := { conversations := [fxConv], messages := [], summaries := [] }

/-- Store with the conversation, one message and an existing summary. -/
def fxDbSum : Db := { conversations := [fxConv], messages := [fxMsg], summaries := [fxSummary] }

/-- Three messages on `fxConv` with distinct creation times, stored out of order. -/
def fxDbMsgs : Db :=
  { conversations := [fxConv],
    messages :=
      [{ fxMsg with id := 1, created_at := 5 },
       { fxMsg with id := 2, created_at := 2 },
       { fxMsg with id := 3, created_at := 9 }],
    summaries := [] }

/-- The message persisted when `fxPatient` sends "Tengo fiebre" on `fxDb` with
no provider configured (the MyMemory failure degrades to the placeholder). -/
def fxSentMsg : Message :=
  { id := 1, conversation_id := 1, sender_id := 2, sender_role := "patient",
    original_text := "Tengo fiebre", translated_text := "[English] Tengo fiebre",
    audio_url := none, audio_duration := none, message_type := "text",
    created_at := 7 }

/-- `fxDb` after that send. -/
def fxDbAfterSend : Db :=
  { conversations := [fxConv], messages := [fxSentMsg], summaries := [] }

/-- `fxConv` in the archived state. -/
def fxConvArchived : Conversation := { fxConv with status := "archived" }

/-- Store holding only the archived conversation. -/
def fxDbArchived : Db := { conversations := [fxConvArchived], messages := [], summaries := [] }

/-- A fixed summary generator standing in for `generateMedicalSummary`. -/
def fxGen : List Message → String → String → SummaryData :=
  fun _ _ _ =>
    { content := "new content", symptoms := "new symptoms", diagnosis := "new diagnosis",
      medications := "new medications", followUpActions := "new follow-up" }

/-- `fxSummary` after being overwritten in place by the upsert with the output
of `fxGen` (id and conversation untouched). -/
def fxSummaryOverwritten : Summary :=
  { fxSummary with
      content := "new content",
      symptoms := "new symptoms",
      diagnosis := "new diagnosis",
      medications := "new medications",
      follow_up_actions := "new follow-up",
      generated_by := some 1 }

/-! ## Helper lemmas -/

/-- Every existing id is strictly below the next `AUTO_INCREMENT` value. -/
theorem mem_lt_nextId (ids : List Nat) (i : Nat) (h : i ∈ ids) : i < nextId ids := by
  have hle : i ≤ ids.foldr max 0 := by
    induction ids with
    | nil => cases h
    | cons x xs ih =>
      rcases List.mem_cons.mp h with rfl | hx
      · exact Nat.le_max_left _ _
      · exact Nat.le_trans (ih hx) (Nat.le_max_right _ _)
  exact Nat.lt_succ_of_le hle

/-- If filtering leaves exactly one row, `find?` returns that row. -/
theorem find?_of_filter_singleton {α : Type} (p : α → Bool) (l : List α) (a : α)
    (h : l.filter p = [a]) : l.find? p = some a := by
  induction l with
  | nil => simp at h
  | cons x xs ih =>
    by_cases hp : p x
    · rw [List.filter_cons_of_pos hp] at h
      obtain ⟨rfl, -⟩ := List.cons.injEq .. ▸ h
      injection h with h1 h2
      exact h1 ▸ List.find?_cons_of_pos _ hp
    · rw [List.filter_cons_of_neg hp] at h
      rw [List.find?_cons_of_neg _ hp]
      exact ih h

/-- Mapping a row-updating function that does not change whether a row matches
the filter keeps the number of matching rows unchanged. -/
theorem length_filter_map_eq {α : Type} (g : α → α) (p : α → Bool) (l : List α)
    (hpg : ∀ x ∈ l, p (g x) = p x) :
    ((l.map g).filter p).length = (l.filter p).length := by
  induction l with
  | nil => rfl
  | cons x xs ih =>
    have hx := hpg x (List.mem_cons_self x xs)
    have ihx := ih (fun y hy => hpg y (List.mem_cons_of_mem _ hy))
    by_cases hp : p x
    · simp [List.filter_cons, hx, hp, ihx]
    · simp [List.filter_cons, hx, hp, ihx]

/-- A member of a joined list occurs as a substring of the join. -/
theorem joinSep_infix_of_mem (sep a : String) :
    ∀ l : List String, a ∈ l → a.data <:+: (joinSep sep l).data := by
  intro l
  induction l with
  | nil => intro h; cases h
  | cons x xs ih =>
    intro h
    cases xs with
    | nil =>
      rcases List.mem_cons.mp h with rfl | hx
      · exact List.infix_refl _
      · cases hx
    | cons y ys =>
      rcases List.mem_cons.mp h with rfl | hx
      · refine ⟨[], (sep ++ joinSep sep (y :: ys)).data, ?_⟩
        simp [joinSep, String.data_append, List.append_assoc]
      · have hinf := ih hx
        obtain ⟨s, t, ht⟩ := hinf
        refine ⟨(x ++ sep).data ++ s, t, ?_⟩
        simp [joinSep, String.data_append, ← ht, List.append_assoc]

/-- `Message.findById` immediately after `Message.create` returns the freshly
inserted row. -/
theorem findById_message_create (db : Db) (cid sid : Nat) (role ot tt : String)
    (au : Option String) (ad : Option Nat) (mt : String) (now : Nat) :
    Message.findById (Message.create db cid sid role ot tt au ad mt now).snd
      (Message.create db cid sid role ot tt au ad mt now).fst =
      some { id := nextId (db.messages.map (fun m => m.id)), conversation_id := cid,
             sender_id := sid, sender_role := role, original_text := ot,
             translated_text := tt,
             audio_url := match au with | some s => if s = "" then none else some s | none => none,
             audio_duration := match ad with | some 0 => none | o => o,
             message_type := if mt = "" then "text" else mt,
             created_at := now } := by
  have hnone : db.messages.find?
      (fun m => m.id = nextId (db.messages.map (fun m => m.id))) = none := by
    rw [List.find?_eq_none]
    intro m hm
    have := mem_lt_nextId (db.messages.map (fun m => m.id)) m.id
      (List.mem_map_of_mem (fun m => m.id) hm)
    simp only [decide_eq_true_eq]
    omega
  simp [Message.create, Message.findById, List.find?_append, hnone]

/-! ## Claim theorems -/

/-- C7: for every text and every language, calling the translate operation with
source language equal to the target language returns the original text
unchanged — no fallback placeholder and no provider call (the attempted
provider list is empty). -/
theorem c7_same_language_identity (e : Env) (text lang : String) :
    translateTextRun e text lang (some lang) = (text, []) := by
  by_cases h1 : text = ""
  · simp [translateTextRun, h1]
  · by_cases h2 : lang = ""
    · simp [translateTextRun, h1, h2]
    · simp [translateTextRun, h1, h2]

/-- C8, counterexample: for the whitespace-only input `" "` the translate
operation returns the original `" "` — a non-empty translation — so the claim
that the returned translation is empty fails (the no-provider-call half does
hold). -/
theorem c8_counterexample :
    jsTrim " " = "" ∧ translateTextRun { } " " "es" none = (" ", []) ∧
      (" " : String) ≠ "" :=
  ⟨by decide, by decide, by decide⟩

/-- C8, amended: for every input that is empty or whitespace-only, the
translate operation returns the original text unchanged (not necessarily the
empty string) and calls no translation provider. -/
theorem c8_whitespace_returns_original (e : Env) (text targetLanguage : String)
    (sourceLanguage : Option String) (h : jsTrim text = "") :
    translateTextRun e text targetLanguage sourceLanguage = (text, []) := by
  by_cases h1 : text = ""
  · simp [translateTextRun, h1]
  · by_cases h2 : targetLanguage = ""
    · simp [translateTextRun, h1, h2]
    · by_cases h3 : sourceLanguage = some targetLanguage
      · simp [translateTextRun, h1, h2, h3]
      · simp [translateTextRun, h1, h2, h3, h]

/-- C8, witness for the amended theorem at a concrete whitespace input. -/
theorem c8_whitespace_witness :
    jsTrim "   " = "" ∧ translateTextRun { } "   " "es" none = ("   ", []) :=
  ⟨by decide, c8_whitespace_returns_original { } "   " "es" none (by decide)⟩

/-- C5: the translation step never fails the enclosing send.  (1) When the
primary provider and every fallback endpoint fail, the result is the
deterministic placeholder transform `mockTranslate` applied to the trimmed
text; (2) beyond the primary provider, at most one fallback provider (the
RapidAPI chain) is ever attempted; (3) the success of the HTTP realtime send
is independent of the provider outcomes — a send never fails because a
third-party translation API was down. -/
theorem c5_translation_failure_never_fails_send :
    (∀ (e : Env) (text tgt : String) (src : Option String),
        jsTrim text ≠ "" → tgt ≠ "" → src ≠ some tgt →
        e.myMemoryOutcome = none → (∀ i, e.rapidOutcome i = none) →
        translateText e text tgt src = mockTranslate (jsTrim text) tgt) ∧
    (∀ (e : Env) (text tgt : String) (src : Option String),
        ((translateTextRun e text tgt src).snd.filter
            (fun p => p == Provider.rapidapi)).length ≤ 1) ∧
    (∀ (e e' : Env) (db : Db) (user : Principal) (cid : Nat) (text : String)
        (audioUrl : Option String) (dur : Option Nat) (mtype : String) (now : Nat),
        ((sendRealtimeMessage e db user cid text audioUrl dur mtype now).fst).isOk =
          ((sendRealtimeMessage e' db user cid text audioUrl dur mtype now).fst).isOk) := by
  refine ⟨?_, ?_, ?_⟩
  · intro e text tgt src htrim htgt hsrc hmm hrapid
    have htext : text ≠ "" := by
      intro h
      exact htrim (by simp [h, jsTrim])
    have hrap : tryRapidApis e = none := by
      simp [tryRapidApis, List.findSome?_eq_none_iff, hrapid]
    by_cases h5 : useMyMemoryFirst e = true
    · by_cases h6 : hasRapidKey e = true
      · simp [translateText, translateTextRun, htext, htgt, hsrc, htrim, h5, h6, hmm, hrap]
      · simp [translateText, translateTextRun, htext, htgt, hsrc, htrim, h5, h6, hmm, hrap]
    · by_cases h6 : hasRapidKey e = true
      · simp [translateText, translateTextRun, htext, htgt, hsrc, htrim, h5, h6, hmm, hrap]
      · simp [translateText, translateTextRun, htext, htgt, hsrc, htrim, h5, h6, hmm, hrap]
  · intro e text tgt src
    by_cases h1 : text = ""
    · simp [translateTextRun, h1]
    · by_cases h2 : tgt = ""
      · simp [translateTextRun, h1, h2]
      · by_cases h3 : src = some tgt
        · simp [translateTextRun, h1, h2, h3]
        · by_cases h4 : jsTrim text = ""
          · simp [translateTextRun, h1, h2, h3, h4]
          · by_cases h5 : useMyMemoryFirst e = true
            · rcases hm : e.myMemoryOutcome with _ | r
              · by_cases h6 : hasRapidKey e = true
                · rcases ht : tryRapidApis e with _ | t <;>
                    simp [translateTextRun, h1, h2, h3, h4, h5, hm, h6, ht]
                · simp [translateTextRun, h1, h2, h3, h4, h5, hm, h6]
              · simp [translateTextRun, h1, h2, h3, h4, h5, hm]
            · by_cases h6 : hasRapidKey e = true
              · rcases ht : tryRapidApis e with _ | t <;>
                  simp [translateTextRun, h1, h2, h3, h4, h5, h6, ht]
              · simp [translateTextRun, h1, h2, h3, h4, h5, h6]
  · intro e e' db user cid text au dur mt now
    by_cases h1 : cid = 0
    · simp [sendRealtimeMessage, h1]
    · by_cases h2 : (decide (text = "") && optFalsy au) = true
      · simp [sendRealtimeMessage, h1, h2]
      · rcases hc : Conversation.findById db cid with _ | conv
        · simp [sendRealtimeMessage, h1, h2, hc]
        · by_cases h3 : ¬conv.doctor_id = user.id ∧ ¬conv.patient_id = user.id
          · simp [sendRealtimeMessage, h1, h2, hc, h3]
          · simp [sendRealtimeMessage, h1, h2, hc, h3, findById_message_create,
              SendResult.isOk]

/-- C5, witness: with no provider configured and every outcome failing, a
concrete non-empty text degrades to the placeholder transform. -/
theorem c5_witness :
    jsTrim "Tengo fiebre" ≠ "" ∧
      translateText { } "Tengo fiebre" "en" none = mockTranslate (jsTrim "Tengo fiebre") "en" :=
  ⟨by decide,
   c5_translation_failure_never_fails_send.1 { } "Tengo fiebre" "en" none
     (by decide) (by decide) (by decide) rfl (fun _ => rfl)⟩

/-- C1: at both send entry points the translated text stored on the message is
produced against the other participant's stored language — patient language
when the sender is the doctor, doctor language when the sender is the patient —
for every conversation, text and provider environment (so independently of any
detected language of the text). -/
theorem c1_translation_targets_other_participant :
    (∀ (e : Env) (db : Db) (user : Principal) (cid : Nat) (conv : Conversation)
        (text : String) (audioUrl : Option String) (dur : Option Nat) (mtype : String)
        (now : Nat) (msg : Message) (db' : Db),
        Conversation.findById db cid = some conv →
        sendRealtimeMessage e db user cid text audioUrl dur mtype now = (.ok msg, db') →
        (user.role = "doctor" →
          msg.translated_text = translateText e text conv.patient_language none) ∧
        (user.role = "patient" →
          msg.translated_text = translateText e text conv.doctor_language none)) ∧
    (∀ (e : Env) (db : Db) (user : Principal) (cid : Nat) (conv : Conversation)
        (originalText : String) (audioData : Option (String × Nat)) (mtype : String)
        (now : Nat) (msg : Message) (db' : Db),
        Conversation.findById db cid = some conv →
        socketSendMessage e db user cid originalText audioData mtype now = (.ok msg, db') →
        (user.role = "doctor" →
          msg.translated_text = translateText e originalText conv.patient_language none) ∧
        (user.role = "patient" →
          msg.translated_text = translateText e originalText conv.doctor_language none)) := by
  constructor
  · intro e db user cid conv text au dur mt now msg db' hfind hsend
    by_cases h1 : cid = 0
    · simp [sendRealtimeMessage, h1] at hsend
    · by_cases h2 : (decide (text = "") && optFalsy au) = true
      · simp [sendRealtimeMessage, h1, h2] at hsend
      · by_cases h3 : ¬conv.doctor_id = user.id ∧ ¬conv.patient_id = user.id
        · simp [sendRealtimeMessage, h1, h2, hfind, h3] at hsend
        · simp [sendRealtimeMessage, h1, h2, hfind, h3, findById_message_create] at hsend
          obtain ⟨hmsg, -⟩ := hsend
          constructor
          · intro hrole
            by_cases htext : text = ""
            · simp [← hmsg, hrole, htext, translateText, translateTextRun]
            · simp [← hmsg, hrole, htext]
          · intro hrole
            by_cases htext : text = ""
            · simp [← hmsg, hrole, htext, translateText, translateTextRun]
            · simp [← hmsg, hrole, htext]
  · intro e db user cid conv ot audioData mt now msg db' hfind hsend
    by_cases h3 : ¬conv.doctor_id = user.id ∧ ¬conv.patient_id = user.id
    · simp [socketSendMessage, hfind, h3] at hsend
    · simp [socketSendMessage, hfind, h3, findById_message_create] at hsend
      obtain ⟨hmsg, -⟩ := hsend
      constructor
      · intro hrole
        simp [← hmsg, hrole]
      · intro hrole
        simp [← hmsg, hrole]

/-- C1, witness: the patient of `fxConv` (languages en/es) sends Spanish text;
the stored translation targets the doctor's language `en`. -/
theorem c1_witness :
    Conversation.findById fxDb 1 = some fxConv ∧
      sendRealtimeMessage { } fxDb fxPatient 1 "Tengo fiebre" none none "text" 7 =
        (.ok fxSentMsg, fxDbAfterSend) ∧
      fxSentMsg.translated_text = translateText { } "Tengo fiebre" fxConv.doctor_language none :=
  ⟨by decide, by decide,
   (c1_translation_targets_other_participant.1 { } fxDb fxPatient 1 fxConv "Tengo fiebre"
       none none "text" 7 fxSentMsg fxDbAfterSend (by decide) (by decide)).2 (by decide)⟩

/-- C9, counterexample: submissions whose trimmed text is empty and which carry
no audio are NOT rejected at every entry point — the socket `send-message`
handler persists an empty-text message, and the HTTP realtime route persists a
whitespace-only message (it only checks `!text`, without trimming). -/
theorem c9_counterexample :
    jsTrim " " = "" ∧
      (socketSendMessage { } fxDb fxPatient 1 "" none "" 7).fst.isOk = true ∧
      (socketSendMessage { } fxDb fxPatient 1 "" none "" 7).snd.messages.length = 1 ∧
      (sendRealtimeMessage { } fxDb fxPatient 1 " " none none "text" 7).fst.isOk = true ∧
      (sendRealtimeMessage { } fxDb fxPatient 1 " " none none "text" 7).snd.messages.length
        = 1 := by
  decide

/-- C9, amended: (1) the HTTP realtime route rejects a submission with empty
(as opposed to merely whitespace) text and no audio with a validation error,
leaving the store unchanged; (2) the conversations messages route rejects any
submission whose trimmed text is empty, leaving the store unchanged; (3) the
socket `send-message` handler performs no content validation and persists the
message whatever the text. -/
theorem c9_empty_message_validation :
    (∀ (e : Env) (db : Db) (user : Principal) (cid : Nat) (audioUrl : Option String)
        (dur : Option Nat) (mtype : String) (now : Nat),
        cid ≠ 0 → optFalsy audioUrl = true →
        sendRealtimeMessage e db user cid "" audioUrl dur mtype now = (.noContent, db)) ∧
    (∀ (db : Db) (user : Principal) (cid : Nat) (conv : Conversation)
        (text srole : String) (now : Nat),
        Conversation.findById db cid = some conv →
        (conv.doctor_id = user.id ∨ conv.patient_id = user.id) →
        jsTrim text = "" →
        messagesPostRoute db user cid text srole now = (.noContent, db)) ∧
    (∀ (e : Env) (db : Db) (user : Principal) (cid : Nat) (conv : Conversation)
        (text : String) (audioData : Option (String × Nat)) (mtype : String) (now : Nat),
        Conversation.findById db cid = some conv →
        (conv.doctor_id = user.id ∨ conv.patient_id = user.id) →
        (socketSendMessage e db user cid text audioData mtype now).fst.isOk = true ∧
        (socketSendMessage e db user cid text audioData mtype now).snd.messages.length =
          db.messages.length + 1) := by
  refine ⟨?_, ?_, ?_⟩
  · intro e db user cid au dur mt now hcid hau
    simp [sendRealtimeMessage, hcid, hau]
  · intro db user cid conv text srole now hfind hpart htrim
    have h3 : ¬(¬conv.doctor_id = user.id ∧ ¬conv.patient_id = user.id) := by
      rcases hpart with h | h <;> simp [h]
    simp [messagesPostRoute, hfind, h3, htrim]
  · intro e db user cid conv text audioData mt now hfind hpart
    have h3 : ¬(¬conv.doctor_id = user.id ∧ ¬conv.patient_id = user.id) := by
      rcases hpart with h | h <;> simp [h]
    constructor
    · simp [socketSendMessage, hfind, h3, findById_message_create, SendResult.isOk]
    · simp [socketSendMessage, hfind, h3, findById_message_create]
      simp [Message.create]

/-- C9, witness for the amended theorem at concrete inputs. -/
theorem c9_witness :
    sendRealtimeMessage { } fxDb fxPatient 1 "" none none "text" 7 = (.noContent, fxDb) ∧
      jsTrim " " = "" ∧
      messagesPostRoute fxDb fxPatient 1 " " "" 7 = (.noContent, fxDb) :=
  ⟨c9_empty_message_validation.1 { } fxDb fxPatient 1 none none "text" 7
     (by decide) (by decide),
   by decide,
   c9_empty_message_validation.2.1 fxDb fxPatient 1 fxConv " " "" 7
     (by decide) (Or.inr (by decide)) (by decide)⟩

/-- C4, counterexample: the claim's transition table does not match the code.
`active→archived` (allowed by the claim) fails with a persistence error — the
generated UPDATE statement has a dangling comma (`SET status = ?, WHERE`) for
every status other than `'ended'` — while `archived→ended` (forbidden by the
claim) succeeds and stamps the end timestamp; no `InvalidTransition` error
exists anywhere. -/
theorem c4_counterexample :
    fxConv.status = "active" ∧
      patchStatusRoute fxDb fxDoctor 1 "archived" 5 = (.dbError, fxDb) ∧
      fxConvArchived.status = "archived" ∧
      (patchStatusRoute fxDbArchived fxDoctor 1 "ended" 5).fst =
        .ok (some { fxConvArchived with status := "ended", ended_at := some 5 }) := by
  set_option maxRecDepth 8192 in decide

/-- C4, amended: `PATCH /:id/status` performs no transition check.  For a
participant and an existing conversation: a request with status `'ended'`
succeeds from any current status and stamps `ended_at`; a request with
`'active'` or `'archived'` always fails with a persistence error (malformed
UPDATE, dangling comma before `WHERE`); a status outside the enum is rejected
as invalid.  No `InvalidTransition` error exists. -/
theorem c4_status_update_no_transition_check :
    ∀ (db : Db) (user : Principal) (id : Nat) (conv : Conversation) (status : String)
      (now : Nat),
      Conversation.findById db id = some conv →
      (conv.doctor_id = user.id ∨ conv.patient_id = user.id) →
      ((status = "ended" →
          (patchStatusRoute db user id status now).fst.isOk = true ∧
          ∀ x ∈ (patchStatusRoute db user id status now).snd.conversations,
            x.id = id → x.status = "ended" ∧ x.ended_at = some now) ∧
       ((status = "active" ∨ status = "archived") →
          patchStatusRoute db user id status now = (.dbError, db)) ∧
       (status ∉ (["active", "ended", "archived"] : List String) →
          patchStatusRoute db user id status now = (.invalidStatus, db))) := by
  intro db user id conv status now hfind hpart
  have h3 : ¬(¬conv.doctor_id = user.id ∧ ¬conv.patient_id = user.id) := by
    rcases hpart with h | h <;> simp [h]
  refine ⟨?_, ?_, ?_⟩
  · rintro rfl
    have hm : updateStatusQueryMalformed "ended" = false := by decide
    constructor
    · simp [patchStatusRoute, hfind, h3, Conversation.updateStatus, hm, StatusResult.isOk]
    · intro x hx hxid
      simp [patchStatusRoute, hfind, h3, Conversation.updateStatus, hm] at hx
      obtain ⟨y, hy, hfy⟩ := hx
      by_cases hyid : y.id = id
      · simp [hyid] at hfy
        subst hfy
        simp
      · simp [hyid] at hfy
        subst hfy
        exact absurd hxid hyid
  · rintro (rfl | rfl)
    · have hm : updateStatusQueryMalformed "active" = true := by decide
      simp [patchStatusRoute, hfind, h3, Conversation.updateStatus, hm]
    · have hm : updateStatusQueryMalformed "archived" = true := by decide
      simp [patchStatusRoute, hfind, h3, Conversation.updateStatus, hm]
  · intro hst
    simp [patchStatusRoute, hst]

/-- C4, witness for the amended theorem at concrete inputs. -/
theorem c4_witness :
    (patchStatusRoute fxDb fxDoctor 1 "ended" 5).fst.isOk = true ∧
      patchStatusRoute fxDb fxDoctor 1 "reopened" 5 = (.invalidStatus, fxDb) :=
  ⟨((c4_status_update_no_transition_check fxDb fxDoctor 1 fxConv "ended" 5
       (by decide) (Or.inl (by decide))).1 rfl).1,
   (c4_status_update_no_transition_check fxDb fxDoctor 1 fxConv "reopened" 5
       (by decide) (Or.inl (by decide))).2.2 (by decide)⟩

/-- C3, counterexample: at the summaries router's generate endpoint a second
generation without regenerate intent does NOT fail with Conflict — there is no
existing-summary check there and `Summary.create`'s upsert silently overwrites
the existing row (the 409 Conflict exists only at the ai-summary generate
endpoint). -/
theorem c3_counterexample :
    Summary.findByConversationId fxDbSum 1 = some fxSummary ∧
      (summariesGenerate fxDbSum fxDoctor 1 fxGen).fst.isConflict = false ∧
      (summariesGenerate fxDbSum fxDoctor 1 fxGen).fst.isOk = true ∧
      (summariesGenerate fxDbSum fxDoctor 1 fxGen).snd.summaries =
        [fxSummaryOverwritten] := by
  decide

/-- C3, amended: for a conversation that already has exactly one summary row,
(1) the ai-summary generate endpoint rejects a second generation with 409
Conflict carrying the existing row and leaves the store unchanged, (2) the
ai-summary regenerate endpoint succeeds and overwrites in place, and (3) the
summaries router's generate endpoint succeeds and upserts in place — in every
case the row count for the conversation stays exactly one. -/
theorem c3_summary_regeneration :
    ∀ (db : Db) (user : Principal) (cid : Nat) (conv : Conversation) (s0 : Summary)
      (gen : List Message → String → String → SummaryData),
      cid ≠ 0 →
      Conversation.findById db cid = some conv →
      conv.doctor_id = user.id →
      Message.findByConversationId db cid ≠ [] →
      db.summaries.filter (fun s => s.conversation_id = cid) = [s0] →
      (aiSummaryGenerate db user cid gen = (.conflict s0, db)) ∧
      ((aiSummaryRegenerate db user cid gen).fst.isOk = true ∧
        summaryRowCount (aiSummaryRegenerate db user cid gen).snd cid = 1) ∧
      ((summariesGenerate db user cid gen).fst.isOk = true ∧
        summaryRowCount (summariesGenerate db user cid gen).snd cid = 1) := by
  intro db user cid conv s0 gen hcid hfind hdoc hmsgs hsum
  have hfindS : db.summaries.find? (fun s => s.conversation_id = cid) = some s0 :=
    find?_of_filter_singleton _ _ _ hsum
  have hmsg : (Message.findByConversationId db cid).isEmpty = false := by
    simp [List.isEmpty_eq_false, hmsgs]
  refine ⟨?_, ⟨?_, ?_⟩, ⟨?_, ?_⟩⟩
  · simp [aiSummaryGenerate, hcid, hfind, hdoc, hmsg, Summary.findByConversationId, hfindS]
  · simp [aiSummaryRegenerate, hcid, hfind, hdoc, hmsg, Summary.findByConversationId,
      hfindS, SumRes.isOk]
  · simp [aiSummaryRegenerate, hcid, hfind, hdoc, hmsg, Summary.findByConversationId,
      hfindS, Summary.update, summaryRowCount]
    rw [length_filter_map_eq _ _ _ (fun x _ => by by_cases h : x.id = s0.id <;> simp [h])]
    rw [hsum]
    rfl
  · simp [summariesGenerate, hfind, hdoc, hmsg, Summary.create, hfindS, SumRes.isOk]
  · simp [summariesGenerate, hfind, hdoc, hmsg, Summary.create, hfindS, summaryRowCount]
    rw [length_filter_map_eq _ _ _
      (fun x _ => by by_cases h : x.conversation_id = cid <;> simp [h])]
    rw [hsum]
    rfl

/-- C3, witness for the amended theorem on a concrete store that already has
one summary row for the conversation. -/
theorem c3_witness :
    aiSummaryGenerate fxDbSum fxDoctor 1 fxGen = (.conflict fxSummary, fxDbSum) ∧
      summaryRowCount (summariesGenerate fxDbSum fxDoctor 1 fxGen).snd 1 = 1 :=
  ⟨(c3_summary_regeneration fxDbSum fxDoctor 1 fxConv fxSummary fxGen (by decide)
      (by decide) (by decide) (by decide) (by decide)).1,
   (c3_summary_regeneration fxDbSum fxDoctor 1 fxConv fxSummary fxGen (by decide)
      (by decide) (by decide) (by decide) (by decide)).2.2.2⟩

/-- C2: for a (doctor, patient) pair with exactly one active conversation,
creating without a resolution action returns 409 Conflict carrying the
existing conversation and leaves the store unchanged; the `reuse` action
returns that same conversation without mutation; the `end_and_create` action
answers 201, after which exactly one active conversation exists for the pair —
a fresh one created now — and the previously active conversation is `ended`
with a stamped end timestamp. -/
theorem c2_active_conversation_uniqueness :
    ∀ (db : Db) (user : Principal) (patientId : Nat) (c0 : Conversation)
      (patientLanguage doctorLanguage title : String) (now : Nat),
      user.role = "doctor" →
      patientId ≠ 0 →
      patientLanguage ≠ "" →
      db.conversations.filter (fun c =>
          c.doctor_id = user.id && c.patient_id = patientId && c.status = "active") = [c0] →
      (createConversationRoute db user patientId patientLanguage doctorLanguage title
          none now = (.conflict c0, db)) ∧
      (createConversationRoute db user patientId patientLanguage doctorLanguage title
          (some "reuse") now = (.reused c0, db)) ∧
      ((createConversationRoute db user patientId patientLanguage doctorLanguage title
          (some "end_and_create") now).fst.isCreated = true ∧
        ((createConversationRoute db user patientId patientLanguage doctorLanguage title
            (some "end_and_create") now).snd.conversations.filter (fun c =>
            c.doctor_id = user.id && c.patient_id = patientId && c.status = "active")).length
          = 1 ∧
        (∀ x ∈ (createConversationRoute db user patientId patientLanguage doctorLanguage title
            (some "end_and_create") now).snd.conversations.filter (fun c =>
            c.doctor_id = user.id && c.patient_id = patientId && c.status = "active"),
          x.id ≠ c0.id ∧ x.status = "active" ∧ x.created_at = now) ∧
        (∀ x ∈ (createConversationRoute db user patientId patientLanguage doctorLanguage title
            (some "end_and_create") now).snd.conversations,
          x.id = c0.id → x.status = "ended" ∧ x.ended_at = some now)) := by
  intro db user patientId c0 plang dlang title now hrole hpid hlang hactive
  set_option maxRecDepth 4096 in
  have hga : getActiveConversation db user.id patientId = some c0 := by
    unfold getActiveConversation
    rw [hactive]
    rfl
  have hmal : updateStatusQueryMalformed "ended" = false := by decide
  have hc0mem : c0 ∈ db.conversations ∧
      (c0.doctor_id = user.id && c0.patient_id = patientId && c0.status = "active") = true := by
    have : c0 ∈ db.conversations.filter (fun c =>
        c.doctor_id = user.id && c.patient_id = patientId && c.status = "active") := by
      rw [hactive]; exact List.mem_singleton.mpr rfl
    simpa using List.mem_filter.mp this
  refine ⟨?_, ?_, ?_⟩
  · simp [createConversationRoute, hrole, hpid, hlang, hga]
  · simp [createConversationRoute, hrole, hpid, hlang, hga]
  · refine ⟨?_, ?_, ?_, ?_⟩
    · simp [createConversationRoute, hrole, hpid, hlang, hga, Conversation.updateStatus,
        hmal, Conversation.create, CreateResult.isCreated]
    · simp [createConversationRoute, hrole, hpid, hlang, hga, Conversation.updateStatus,
        hmal, Conversation.create]
      intro a ha hdoc hpat
      by_cases hid : a.id = c0.id
      · simp [hid]
      · simp [hid] at hdoc hpat ⊢
        intro hst
        have hmem : a ∈ db.conversations.filter (fun c =>
            c.doctor_id = user.id && c.patient_id = patientId && c.status = "active") :=
          List.mem_filter.mpr ⟨ha, by simp [hdoc, hpat, hst]⟩
        rw [hactive] at hmem
        exact hid (by rw [List.mem_singleton.mp hmem])
    · simp [createConversationRoute, hrole, hpid, hlang, hga, Conversation.updateStatus,
        hmal, Conversation.create]
      intro x hx
      rcases hx with ⟨⟨a, ha, rfl⟩, ⟨hdoc, hpat⟩, hst⟩ | rfl
      · by_cases hid : a.id = c0.id
        · simp [hid] at hst
        · simp [hid] at hdoc hpat hst
          have hmem : a ∈ db.conversations.filter (fun c =>
              c.doctor_id = user.id && c.patient_id = patientId && c.status = "active") :=
            List.mem_filter.mpr ⟨ha, by simp [hdoc, hpat, hst]⟩
          rw [hactive] at hmem
          exact absurd (by rw [List.mem_singleton.mp hmem]) hid
      · refine ⟨?_, rfl, rfl⟩
        intro hid
        have hfresh : c0.id < nextId (List.map ((fun c => c.id) ∘ (fun c =>
            if c.id = c0.id then { c with status := "ended", ended_at := some now } else c))
            db.conversations) := by
          apply mem_lt_nextId
          refine List.mem_map.mpr ⟨c0, hc0mem.1, ?_⟩
          simp
        simp at hid
        omega
    · simp [createConversationRoute, hrole, hpid, hlang, hga, Conversation.updateStatus,
        hmal, Conversation.create]
      intro x hx hid
      rcases hx with ⟨a, ha, rfl⟩ | rfl
      · by_cases haid : a.id = c0.id
        · simp [haid]
        · simp [haid] at hid
      · have hfresh : c0.id < nextId (List.map ((fun c => c.id) ∘ (fun c =>
            if c.id = c0.id then { c with status := "ended", ended_at := some now } else c))
            db.conversations) := by
          apply mem_lt_nextId
          refine List.mem_map.mpr ⟨c0, hc0mem.1, ?_⟩
          simp
        simp at hid
        omega

/-- C2, witness at a concrete store holding one active conversation for the
pair. -/
theorem c2_witness :
    createConversationRoute fxDb fxDoctor 2 "es" "en" "t" none 9 = (.conflict fxConv, fxDb) ∧
      createConversationRoute fxDb fxDoctor 2 "es" "en" "t" (some "reuse") 9 =
        (.reused fxConv, fxDb) ∧
      (createConversationRoute fxDb fxDoctor 2 "es" "en" "t"
          (some "end_and_create") 9).fst.isCreated = true :=
  ⟨(c2_active_conversation_uniqueness fxDb fxDoctor 2 fxConv "es" "en" "t" 9
      rfl (by decide) (by decide) (by decide)).1,
   (c2_active_conversation_uniqueness fxDb fxDoctor 2 fxConv "es" "en" "t" 9
      rfl (by decide) (by decide) (by decide)).2.1,
   (c2_active_conversation_uniqueness fxDb fxDoctor 2 fxConv "es" "en" "t" 9
      rfl (by decide) (by decide) (by decide)).2.2.1⟩

/-- C6: the rule-based fallback extraction is a deterministic function of the
transcript.  (1) Whenever the lowercased transcript contains the substring
"fever", the symptoms field contains the fixed label "Fever/temperature";
(2) whenever no keyword of any of the four tables occurs in the lowercased
transcript, each of the four fields equals its fixed default phrase. -/
theorem c6_rule_based_extraction :
    (∀ t : String, includesStr (lowerStr t) "fever" = true →
        "Fever/temperature".data <:+: (extractSymptoms t).data) ∧
    (∀ t : String,
        (∀ kv ∈ symptomKeywords ++ diagnosisKeywords ++ medicationKeywords ++ followUpKeywords,
            includesStr (lowerStr t) kv.fst = false) →
        extractSymptoms t = "Symptoms not explicitly detailed" ∧
        extractDiagnosis t = "Assessment pending - Review clinical notes" ∧
        extractMedications t = "Medication details not specified in transcript" ∧
        extractFollowUp t = "Follow standard care instructions - consult healthcare provider") := by
  constructor
  · intro t hfever
    have hmem : ("fever", "Fever/temperature") ∈ symptomKeywords := by decide
    have hfilter : ("fever", "Fever/temperature") ∈ symptomKeywords.filter
        (fun kv => includesStr (lowerStr t) kv.fst) :=
      List.mem_filter.mpr ⟨hmem, hfever⟩
    have hlabel : "Fever/temperature" ∈ foundLabels symptomKeywords t :=
      List.mem_map_of_mem (fun kv => kv.snd) hfilter
    have hne : (foundLabels symptomKeywords t).isEmpty = false := by
      simp [List.isEmpty_eq_false]
      exact List.ne_nil_of_mem hlabel
    simp only [extractSymptoms, hne, Bool.false_eq_true, if_false]
    exact joinSep_infix_of_mem ", " "Fever/temperature" _ hlabel
  · intro t hnone
    have hs : symptomKeywords.filter (fun kv => includesStr (lowerStr t) kv.fst) = [] :=
      List.filter_eq_nil_iff.mpr (fun kv hkv => by
        simp [hnone kv (List.mem_append_left _ (List.mem_append_left _
          (List.mem_append_left _ hkv)))])
    have hd : diagnosisKeywords.find? (fun kv => includesStr (lowerStr t) kv.fst) = none :=
      List.find?_eq_none.mpr (fun kv hkv => by
        simp [hnone kv (List.mem_append_left _ (List.mem_append_left _
          (List.mem_append_right _ hkv)))])
    have hm : medicationKeywords.filter (fun kv => includesStr (lowerStr t) kv.fst) = [] :=
      List.filter_eq_nil_iff.mpr (fun kv hkv => by
        simp [hnone kv (List.mem_append_left _ (List.mem_append_right _ hkv))])
    have hf : followUpKeywords.filter (fun kv => includesStr (lowerStr t) kv.fst) = [] :=
      List.filter_eq_nil_iff.mpr (fun kv hkv => by
        simp [hnone kv (List.mem_append_right _ hkv)])
    refine ⟨?_, ?_, ?_, ?_⟩
    · simp [extractSymptoms, foundLabels, hs]
    · simp [extractDiagnosis, hd]
    · simp [extractMedications, foundLabels, hm]
    · simp [extractFollowUp, foundLabels, hf]

/-- C6, witness: a transcript mentioning "Fever" yields the fever label, and a
keyword-free transcript yields the symptoms default. -/
theorem c6_witness :
    includesStr (lowerStr "Patient reports Fever since Monday") "fever" = true ∧
      "Fever/temperature".data <:+:
        (extractSymptoms "Patient reports Fever since Monday").data ∧
      extractSymptoms "zzz" = "Symptoms not explicitly detailed" :=
  ⟨by decide,
   c6_rule_based_extraction.1 "Patient reports Fever since Monday" (by decide),
   (c6_rule_based_extraction.2 "zzz" (by decide)).1⟩

/-- C10: the recent-message backfill contains at most `limit` messages, lists
them in ascending creation-time order, consists exactly of messages of the
conversation, and any message of the conversation left out is no newer than
every delivered one; the `join-conversation` handler delivers this backfill
with limit 50 to an authorized participant. -/
theorem c10_recent_messages_backfill :
    ∀ (db : Db) (cid limit : Nat),
      (getRecentMessages db cid limit).length ≤ limit ∧
      List.Sorted (fun a b : Message => a.created_at ≤ b.created_at)
        (getRecentMessages db cid limit) ∧
      (∀ y ∈ db.messages, y.conversation_id = cid → y ∉ getRecentMessages db cid limit →
        ∀ x ∈ getRecentMessages db cid limit, y.created_at ≤ x.created_at) ∧
      (∀ x ∈ getRecentMessages db cid limit, x.conversation_id = cid ∧ x ∈ db.messages) ∧
      (∀ (user : Principal) (conv : Conversation),
        Conversation.findById db cid = some conv →
        (conv.doctor_id = user.id ∨ conv.patient_id = user.id) →
        joinConversationBackfill db user cid = .joined (getRecentMessages db cid 50)) := by
  intro db cid limit
  have hs : List.Sorted (fun a b : Message => b.created_at ≤ a.created_at)
      (List.insertionSort (fun a b : Message => b.created_at ≤ a.created_at)
        (db.messages.filter (fun m => m.conversation_id = cid))) :=
    List.sorted_insertionSort _ _
  have hperm := List.perm_insertionSort (fun a b : Message => b.created_at ≤ a.created_at)
      (db.messages.filter (fun m => m.conversation_id = cid))
  refine ⟨?_, ?_, ?_, ?_, ?_⟩
  · simp [getRecentMessages]
  · unfold getRecentMessages
    exact List.pairwise_reverse.mpr (List.Pairwise.sublist (List.take_sublist _ _) hs)
  · intro y hy hcidy hnot x hx
    have hyfilter : y ∈ db.messages.filter (fun m => m.conversation_id = cid) :=
      List.mem_filter.mpr ⟨hy, by simp [hcidy]⟩
    have hysort := (hperm.mem_iff).mpr hyfilter
    rw [← List.take_append_drop limit
      (List.insertionSort (fun a b : Message => b.created_at ≤ a.created_at)
        (db.messages.filter (fun m => m.conversation_id = cid)))] at hysort
    have hpw := hs
    rw [← List.take_append_drop limit
      (List.insertionSort (fun a b : Message => b.created_at ≤ a.created_at)
        (db.messages.filter (fun m => m.conversation_id = cid)))] at hpw
    have hsplit := List.pairwise_append.mp hpw
    have hxtake : x ∈ (List.insertionSort (fun a b : Message => b.created_at ≤ a.created_at)
        (db.messages.filter (fun m => m.conversation_id = cid))).take limit := by
      simpa [getRecentMessages] using hx
    have hynottake : y ∉ (List.insertionSort (fun a b : Message => b.created_at ≤ a.created_at)
        (db.messages.filter (fun m => m.conversation_id = cid))).take limit := by
      simpa [getRecentMessages] using hnot
    have hydrop : y ∈ (List.insertionSort (fun a b : Message => b.created_at ≤ a.created_at)
        (db.messages.filter (fun m => m.conversation_id = cid))).drop limit := by
      rcases List.mem_append.mp hysort with h | h
      · exact absurd h hynottake
      · exact h
    exact hsplit.2.2 x hxtake y hydrop
  · intro x hx
    have hxtake : x ∈ (List.insertionSort (fun a b : Message => b.created_at ≤ a.created_at)
        (db.messages.filter (fun m => m.conversation_id = cid))).take limit := by
      simpa [getRecentMessages] using hx
    have hxsort := (List.take_sublist _ _).mem hxtake
    have hxfilter := (hperm.mem_iff).mp hxsort
    have := List.mem_filter.mp hxfilter
    exact ⟨by simpa using this.2, this.1⟩
  · intro user conv hfind hpart
    have h3 : ¬(¬conv.doctor_id = user.id ∧ ¬conv.patient_id = user.id) := by
      rcases hpart with h | h <;> simp [h]
    simp [joinConversationBackfill, hfind, h3]

/-- C10, witness: on a store with three messages (creation times 5, 2, 9) and
limit 2, the backfill is the two most recent messages in ascending order. -/
theorem c10_witness :
    (getRecentMessages fxDbMsgs 1 2).length ≤ 2 ∧
      getRecentMessages fxDbMsgs 1 2 =
        [{ fxMsg with id := 1, created_at := 5 }, { fxMsg with id := 3, created_at := 9 }] ∧
      joinConversationBackfill fxDbMsgs fxDoctor 1 =
        .joined (getRecentMessages fxDbMsgs 1 50) :=
  ⟨(c10_recent_messages_backfill fxDbMsgs 1 2).1,
   by decide,
   (c10_recent_messages_backfill fxDbMsgs 1 50).2.2.2.2 fxDoctor fxConv
     (by decide) (Or.inl (by decide))⟩

end HealthcareChat

